import Mathlib

/-! Verification of the proxygen HQ framing codec (HTTP/3 frame layer).

The repository excerpt contains only the header `HQFramer.h` with the
declarations, constants and types of the codec; the function bodies
(HQFramer.cpp) are not part of the excerpt.  Constants, enumerations and
structures below are translated directly from `HQFramer.h`; every function
body is modelled from the specification (spec.md sections 4.1-4.5), as
noted in its doc comment.

Byte streams are embedded as lists of natural numbers; each entry stands
for one octet and is reduced mod 256 wherever the code inspects the bits
of a single byte.  Machine integers are embedded as natural numbers with
explicit bounds (varint values are below 2^62, push ids live in the
uint64 range).  The fallible parsers return an explicit result: success
carries the parsed value together with the bytes left on the cursor,
failure carries the HTTP/3 error code. -/

namespace HQ


/-- Frame headers have a variable length between 2 and 16 bytes
(HQFramer.h:27). -/
def kMaxFrameHeaderSize : Nat := 16

/-- Index of the maximum GREASE ID allowed on the wire (HQFramer.h:29). -/
def kMaxGreaseIdIndex : Nat := 0x210842108421083

/-- Unframed body DATA frame length (HQFramer.h:32). -/
def kUnframedDataFrameLen : Nat := 0

/-- PushID mask, bit 63, keeping the push id and stream id spaces disjoint
(HQFramer.h:36). -/
def kPushIdMask : Nat := 0x8000000000000000

/-- HTTP/3 error codes surfaced by the parsers (spec section 6: FRAME_ERROR
for malformed frames, SETTINGS_ERROR for bad settings, INTERNAL_ERROR for
unreachable states). -/
inductive HTTP3ErrorCode where
  | FRAME_ERROR
  | SETTINGS_ERROR
  | INTERNAL_ERROR
deriving DecidableEq

/-- Known frame type codepoints (HQFramer.h:53-65). -/
inductive FrameType where
  | DATA
  | HEADERS
  | PRIORITY
  | CANCEL_PUSH
  | SETTINGS
  | PUSH_PROMISE
  | GOAWAY
  | MAX_PUSH_ID
deriving DecidableEq

/-- Wire codepoint of each known frame type (HQFramer.h:53-65). -/
def FrameType.toNat : FrameType → Nat
  | .DATA => 0x00
  | .HEADERS => 0x01
  | .PRIORITY => 0x02
  | .CANCEL_PUSH => 0x03
  | .SETTINGS => 0x04
  | .PUSH_PROMISE => 0x05
  | .GOAWAY => 0x07
  | .MAX_PUSH_ID => 0x0D

/-- Common frame header `{type, length}` (HQFramer.h:67-70).  The type field
holds the wire codepoint (a varint, not restricted to the known enum), the
length field counts the payload bytes that follow. -/
structure FrameHeader where
  type : Nat
  length : Nat
deriving DecidableEq

/-- Priority element types (HQFramer.h:72-77). -/
inductive PriorityElementType where
  | REQUEST_STREAM
  | PUSH_STREAM
  | PLACEHOLDER
  | TREE_ROOT
deriving DecidableEq

/-- Numeric value of a priority element type (HQFramer.h:72-77). -/
def PriorityElementType.toNat : PriorityElementType → Nat
  | .REQUEST_STREAM => 0x00
  | .PUSH_STREAM => 0x01
  | .PLACEHOLDER => 0x02
  | .TREE_ROOT => 0x03

/-- Priority element type decoded from a two-bit field. -/
def PriorityElementType.ofTwoBits (n : Nat) : PriorityElementType :=
  match n with
  | 0 => .REQUEST_STREAM
  | 1 => .PUSH_STREAM
  | 2 => .PLACEHOLDER
  | _ => .TREE_ROOT

/-- Bit position of the prioritized type in the first PRIORITY byte
(HQFramer.h:80). -/
def PRIORITIZED_TYPE_POS : Nat := 6

/-- Bit position of the dependency type in the first PRIORITY byte
(HQFramer.h:81). -/
def DEPENDENCY_TYPE_POS : Nat := 4

/-- Bit position of the empty flag in the first PRIORITY byte
(HQFramer.h:82). -/
def PRIORITY_EMPTY_POS : Nat := 1

/-- Mask of the exclusive flag in the first PRIORITY byte (HQFramer.h:83). -/
def PRIORITY_EXCLUSIVE_MASK : Nat := 0x01

/-- Parsed content of a PRIORITY frame (HQFramer.h:85-119). -/
structure PriorityUpdate where
  prioritizedType : PriorityElementType
  dependencyType : PriorityElementType
  prioritizedElementId : Nat
  elementDependencyId : Nat
  weight : Nat
  exclusive : Bool
deriving DecidableEq

/-- Recognized setting id codepoints (HQFramer.h:121-126). -/
def SettingId.HEADER_TABLE_SIZE : Nat := 0x01

/-- Recognized setting id codepoints (HQFramer.h:121-126). -/
def SettingId.MAX_HEADER_LIST_SIZE : Nat := 0x06

/-- Recognized setting id codepoints (HQFramer.h:121-126). -/
def SettingId.QPACK_BLOCKED_STREAMS : Nat := 0x07

/-- Recognized setting id codepoints (HQFramer.h:121-126). -/
def SettingId.NUM_PLACEHOLDERS : Nat := 0x09

/-- Recognized setting ids: HEADER_TABLE_SIZE, MAX_HEADER_LIST_SIZE,
QPACK_BLOCKED_STREAMS, NUM_PLACEHOLDERS (spec section 3; HQFramer.h:121-126). -/
def isKnownSettingId (settingId : Nat) : Bool :=
  decide (settingId = SettingId.HEADER_TABLE_SIZE ∨
          settingId = SettingId.MAX_HEADER_LIST_SIZE ∨
          settingId = SettingId.QPACK_BLOCKED_STREAMS ∨
          settingId = SettingId.NUM_PLACEHOLDERS)

/-- Modelled from the spec: the QUIC variable-length integer encoder
(spec section 4.1; the varint layer is not part of the excerpt).  The
shortest encoding is chosen: values below 2^6 take one byte, below 2^14
two bytes, below 2^30 four bytes, otherwise eight bytes with the two-bit
length prefix 00/01/10/11 in the top bits of the first byte.  Meaningful
for values below 2^62 (the caller-side bound on varint values). -/
def varintEnc (v : Nat) : List Nat :=
  if v < 0x40 then
    [v]
  else if v < 0x4000 then
    [0x40 + v / 0x100, v % 0x100]
  else if v < 0x40000000 then
    [0x80 + v / 0x1000000, v / 0x10000 % 0x100, v / 0x100 % 0x100, v % 0x100]
  else
    [0xC0 + v / 0x100000000000000 % 0x40,
     v / 0x1000000000000 % 0x100,
     v / 0x10000000000 % 0x100,
     v / 0x100000000 % 0x100,
     v / 0x1000000 % 0x100,
     v / 0x10000 % 0x100,
     v / 0x100 % 0x100,
     v % 0x100]

/-- Modelled from the spec: the QUIC variable-length integer decoder
(spec section 4.1; the varint layer is not part of the excerpt).  Returns
the decoded value together with the number of bytes consumed (1, 2, 4 or
8 according to the two-bit prefix of the first byte), or nothing when
fewer bytes than the prefix demands are available.  Non-canonical longer
encodings are accepted. -/
def readVarint : List Nat → Option (Nat × Nat)
  | [] => none
  | b0 :: rest =>
    if b0 % 256 < 0x40 then
      some (b0 % 256, 1)
    else if b0 % 256 < 0x80 then
      match rest with
      | b1 :: _ => some ((b0 % 256 - 0x40) * 0x100 + b1 % 256, 2)
      | [] => none
    else if b0 % 256 < 0xC0 then
      match rest with
      | b1 :: b2 :: b3 :: _ =>
        some ((b0 % 256 - 0x80) * 0x1000000 + b1 % 256 * 0x10000 +
              b2 % 256 * 0x100 + b3 % 256, 4)
      | _ => none
    else
      match rest with
      | b1 :: b2 :: b3 :: b4 :: b5 :: b6 :: b7 :: _ =>
        some ((b0 % 256 - 0xC0) * 0x100000000000000 +
              b1 % 256 * 0x1000000000000 +
              b2 % 256 * 0x10000000000 +
              b3 % 256 * 0x100000000 +
              b4 % 256 * 0x1000000 +
              b5 % 256 * 0x10000 +
              b6 % 256 * 0x100 +
              b7 % 256, 8)
      | _ => none

/-- Modelled from the spec: the body of `isInternalPushId` (declared at
HQFramer.h:44; the body is not in the excerpt).  Internally push ids have
the high bit (bit 63, `kPushIdMask`) set (spec section 3). -/
def isInternalPushId (pushId : Nat) : Bool :=
  decide (pushId % 0x10000000000000000 / kPushIdMask = 1)

/-- Modelled from the spec: the body of `isExternalPushId` (declared at
HQFramer.h:48; the body is not in the excerpt).  Externally push ids have
the high bit clear and fit in 62 bits (spec section 3: top bit clear AND
value at most 2^62 - 1). -/
def isExternalPushId (pushId : Nat) : Bool :=
  decide (pushId % 0x10000000000000000 / kPushIdMask = 0 ∧
          pushId % 0x10000000000000000 ≤ 0x3FFFFFFFFFFFFFFF)

/-- Modelled from the spec: the body of `getGreaseId` (declared at
HQFramer.h:132; the body is not in the excerpt).  Returns
`0x1F * n + 0x21` when `n` is at most `kMaxGreaseIdIndex`, else absent
(spec section 4.5). -/
def getGreaseId (n : Nat) : Option Nat :=
  if n > kMaxGreaseIdIndex then none else some (0x1F * n + 0x21)

/-- Modelled from the spec: the body of `isGreaseId` (declared at
HQFramer.h:133; the body is not in the excerpt).  True iff `v - 0x21` is
non-negative, divisible by `0x1F` and within range (spec section 4.5). -/
def isGreaseId (v : Nat) : Bool :=
  decide (0x21 ≤ v ∧ (v - 0x21) % 0x1F = 0 ∧
          v ≤ 0x1F * kMaxGreaseIdIndex + 0x21)

/-- Modelled from the spec: the body of `frameAffectsCompression` (declared
at HQFramer.h:134; the body is not in the excerpt).  True exactly for
HEADERS and PUSH_PROMISE (spec section 3). -/
def frameAffectsCompression (type : FrameType) : Bool :=
  match type with
  | .HEADERS => true
  | .PUSH_PROMISE => true
  | _ => false

/-- Modelled from the spec: the body of `parseData` (declared at
HQFramer.h:149-151; the body is not in the excerpt).  Pulls
`header.length` opaque bytes from the cursor into the output buffer; a
length of 0 is allowed (spec section 4.3). -/
def parseData (header : FrameHeader) (bytes : List Nat) :
    Except HTTP3ErrorCode (List Nat × List Nat) :=
  if bytes.length < header.length then
    .error .FRAME_ERROR
  else
    .ok (bytes.take header.length, bytes.drop header.length)

/-- Modelled from the spec: the body of `parseHeaders` (declared at
HQFramer.h:164-166; the body is not in the excerpt).  As `parseData`, but
an empty HEADERS frame is malformed: `header.length` must be at least 1
(spec section 4.3). -/
def parseHeaders (header : FrameHeader) (bytes : List Nat) :
    Except HTTP3ErrorCode (List Nat × List Nat) :=
  if header.length = 0 then
    .error .FRAME_ERROR
  else if bytes.length < header.length then
    .error .FRAME_ERROR
  else
    .ok (bytes.take header.length, bytes.drop header.length)

/-- Modelled from the spec: the body of `parsePriority` (declared at
HQFramer.h:181-183; the body is not in the excerpt).  Spec section 4.3.1:
the first byte packs `prioritizedType` in bits 7-6, `dependencyType` in
bits 5-4, reserved bits 3-2 (must be zero), the empty flag in bit 1 and
`exclusive` in bit 0.  A TREE_ROOT prioritized type is malformed.  The
prioritized element id is read as a varint; the dependency id is read as
a varint only when the dependency type is not TREE_ROOT, otherwise it is
stored as 0.  One byte of weight follows and exactly `header.length`
bytes must have been consumed. -/
def parsePriority (header : FrameHeader) (bytes : List Nat) :
    Except HTTP3ErrorCode (PriorityUpdate × List Nat) :=
  match bytes with
  | [] => .error .FRAME_ERROR
  | b0 :: r1 =>
    let flags := b0 % 256
    if flags / 4 % 4 ≠ 0 then
      .error .FRAME_ERROR
    else if PriorityElementType.ofTwoBits (flags / 64) = .TREE_ROOT then
      .error .FRAME_ERROR
    else
      match readVarint r1 with
      | none => .error .FRAME_ERROR
      | some (prioritizedElementId, n1) =>
        match (if PriorityElementType.ofTwoBits (flags / 16 % 4) = .TREE_ROOT
               then some (0, 0)
               else readVarint (r1.drop n1)) with
        | none => .error .FRAME_ERROR
        | some (elementDependencyId, n2) =>
          match r1.drop (n1 + n2) with
          | [] => .error .FRAME_ERROR
          | w :: _ =>
            if 1 + n1 + n2 + 1 = header.length then
              .ok (⟨PriorityElementType.ofTwoBits (flags / 64),
                    PriorityElementType.ofTwoBits (flags / 16 % 4),
                    prioritizedElementId,
                    elementDependencyId,
                    w % 256,
                    decide (flags % 2 = 1)⟩,
                   r1.drop (n1 + n2 + 1))
            else
              .error .FRAME_ERROR

/-- Modelled from the spec: the body of `parseCancelPush` (declared at
HQFramer.h:195-197; the body is not in the excerpt).  A single varint
push id; `header.length` must equal the varint encoded size exactly
(spec section 4.3). -/
def parseCancelPush (header : FrameHeader) (bytes : List Nat) :
    Except HTTP3ErrorCode (Nat × List Nat) :=
  match readVarint bytes with
  | none => .error .FRAME_ERROR
  | some (outPushId, n) =>
    if n = header.length then
      .ok (outPushId, bytes.drop n)
    else
      .error .FRAME_ERROR

/-- Modelled from the spec: the loop of `parseSettings`.  Reads
`{id: varint, value: varint}` pairs until the declared payload budget is
exhausted; a pair that would overrun the budget is a FRAME_ERROR and a
duplicate recognized id is a SETTINGS_ERROR.  The fuel argument bounds
the recursion and is at least the remaining budget at every call, so the
INTERNAL_ERROR branch is unreachable from `parseSettings`. -/
def parseSettingsLoop : Nat → Nat → List Nat → List Nat → List (Nat × Nat) →
    Except HTTP3ErrorCode (List (Nat × Nat) × List Nat)
  | _, 0, bytes, _, acc => .ok (acc.reverse, bytes)
  | 0, _ + 1, _, _, _ => .error .INTERNAL_ERROR
  | fuel + 1, remaining + 1, bytes, seen, acc =>
    match readVarint bytes with
    | none => .error .FRAME_ERROR
    | some (settingId, n1) =>
      match readVarint (bytes.drop n1) with
      | none => .error .FRAME_ERROR
      | some (settingValue, n2) =>
        if n1 + n2 ≤ remaining + 1 then
          if isKnownSettingId settingId && decide (settingId ∈ seen) then
            .error .SETTINGS_ERROR
          else
            parseSettingsLoop fuel (remaining + 1 - (n1 + n2))
              (bytes.drop (n1 + n2))
              (if isKnownSettingId settingId then settingId :: seen else seen)
              ((settingId, settingValue) :: acc)
        else
          .error .FRAME_ERROR

/-- Specification-side characterization of the duplicate check performed
by `parseSettingsLoop`: true iff scanning the pairs left to right meets a
recognized setting id that was already seen (the `seen` argument carries
the recognized ids met so far). -/
def hasDupKnown : List (Nat × Nat) → List Nat → Bool
  | [], _ => false
  | (settingId, _) :: tl, seen =>
    if isKnownSettingId settingId && decide (settingId ∈ seen) then true
    else hasDupKnown tl
      (if isKnownSettingId settingId then settingId :: seen else seen)

/-- Modelled from the spec: the body of `parseSettings` (declared at
HQFramer.h:210-212; the body is not in the excerpt).  Zero or more
`{id: varint, value: varint}` pairs which must consume exactly
`header.length` bytes; a duplicate recognized id is a SETTINGS_ERROR;
unknown ids are preserved and returned in order (spec sections 3, 4.3). -/
def parseSettings (header : FrameHeader) (bytes : List Nat) :
    Except HTTP3ErrorCode (List (Nat × Nat) × List Nat) :=
  parseSettingsLoop header.length header.length bytes [] []

/-- Modelled from the spec: the body of `parsePushPromise` (declared at
HQFramer.h:226-229; the body is not in the excerpt).  A varint push id
which must fit in `header.length`, followed by opaque QPACK bytes filling
the rest of the payload, which may be empty (spec section 4.3). -/
def parsePushPromise (header : FrameHeader) (bytes : List Nat) :
    Except HTTP3ErrorCode ((Nat × List Nat) × List Nat) :=
  match readVarint bytes with
  | none => .error .FRAME_ERROR
  | some (outPushId, n) =>
    if header.length < n then
      .error .FRAME_ERROR
    else if bytes.length < header.length then
      .error .FRAME_ERROR
    else
      .ok ((outPushId, (bytes.drop n).take (header.length - n)),
           bytes.drop header.length)

/-- Modelled from the spec: the body of `parseGoaway` (declared at
HQFramer.h:242-244; the body is not in the excerpt).  A single varint
stream id with the exact-length rule (spec section 4.3). -/
def parseGoaway (header : FrameHeader) (bytes : List Nat) :
    Except HTTP3ErrorCode (Nat × List Nat) :=
  match readVarint bytes with
  | none => .error .FRAME_ERROR
  | some (outStreamId, n) =>
    if n = header.length then
      .ok (outStreamId, bytes.drop n)
    else
      .error .FRAME_ERROR

/-- Modelled from the spec: the body of `parseMaxPushId` (declared at
HQFramer.h:257-259; the body is not in the excerpt).  A single varint
push id with the exact-length rule (spec section 4.3). -/
def parseMaxPushId (header : FrameHeader) (bytes : List Nat) :
    Except HTTP3ErrorCode (Nat × List Nat) :=
  match readVarint bytes with
  | none => .error .FRAME_ERROR
  | some (outPushId, n) =>
    if n = header.length then
      .ok (outPushId, bytes.drop n)
    else
      .error .FRAME_ERROR

/-- Modelled from the spec: the body of `writeFrameHeader` (declared at
HQFramer.h:270-272; the body is not in the excerpt).  Emits
varint(type) followed by varint(length) (spec section 4.2). -/
def writeFrameHeader (type : FrameType) (length : Nat) : List Nat :=
  varintEnc type.toNat ++ varintEnc length

/-- Modelled from the spec: the body of `writeData` (declared at
HQFramer.h:283-284; the body is not in the excerpt).  Whole DATA frame:
common header with the payload length, then the unmodified payload
(spec section 4.4). -/
def writeData (data : List Nat) : List Nat :=
  writeFrameHeader .DATA data.length ++ data

/-- Modelled from the spec: the body of `writeUnframedBytes` (declared at
HQFramer.h:295-296; the body is not in the excerpt).  Payload bytes with
no frame header (spec section 4.4). -/
def writeUnframedBytes (data : List Nat) : List Nat :=
  data

/-- Modelled from the spec: the body of `writeHeaders` (declared at
HQFramer.h:307-308; the body is not in the excerpt).  Whole HEADERS
frame: common header, then the opaque header block (spec section 4.4). -/
def writeHeaders (data : List Nat) : List Nat :=
  writeFrameHeader .HEADERS data.length ++ data

/-- Modelled from the spec: the PRIORITY payload written by
`writePriority` (spec sections 4.3.1 and 4.4): the packed first byte,
the prioritized element id varint, the dependency id varint unless the
dependency type is TREE_ROOT, and the weight byte. -/
def priorityPayload (priority : PriorityUpdate) : List Nat :=
  (priority.prioritizedType.toNat * 64 + priority.dependencyType.toNat * 16 +
     (if priority.exclusive then 1 else 0)) ::
  (varintEnc priority.prioritizedElementId ++
   (if priority.dependencyType = .TREE_ROOT then []
    else varintEnc priority.elementDependencyId) ++
   [priority.weight])

/-- Modelled from the spec: the body of `writePriority` (declared at
HQFramer.h:319-320; the body is not in the excerpt). -/
def writePriority (priority : PriorityUpdate) : List Nat :=
  writeFrameHeader .PRIORITY (priorityPayload priority).length ++
    priorityPayload priority

/-- Modelled from the spec: the body of `writeCancelPush` (declared at
HQFramer.h:332-333; the body is not in the excerpt).  Whole CANCEL_PUSH
frame around the single push id varint (spec section 4.4). -/
def writeCancelPush (pushId : Nat) : List Nat :=
  writeFrameHeader .CANCEL_PUSH (varintEnc pushId).length ++ varintEnc pushId

/-- Modelled from the spec: the SETTINGS payload written by
`writeSettings`: for each pair the id varint followed by the value varint, in
the order given (spec section 4.4). -/
def settingsPayload (settings : List (Nat × Nat)) : List Nat :=
  (settings.map fun s => varintEnc s.1 ++ varintEnc s.2).flatten

/-- Modelled from the spec: the body of `writeSettings` (declared at
HQFramer.h:345-346; the body is not in the excerpt).  Emits the pairs in
the given order; the writer does not dedupe (spec section 4.4). -/
def writeSettings (settings : List (Nat × Nat)) : List Nat :=
  writeFrameHeader .SETTINGS (settingsPayload settings).length ++
    settingsPayload settings

/-- Modelled from the spec: the body of `writePushPromise` (declared at
HQFramer.h:358-360; the body is not in the excerpt).  Whole PUSH_PROMISE
frame: push id varint then the opaque header block (spec section 4.4). -/
def writePushPromise (pushId : Nat) (data : List Nat) : List Nat :=
  writeFrameHeader .PUSH_PROMISE (varintEnc pushId ++ data).length ++
    (varintEnc pushId ++ data)

/-- Modelled from the spec: the body of `writeGoaway` (declared at
HQFramer.h:372-373; the body is not in the excerpt). -/
def writeGoaway (lastStreamId : Nat) : List Nat :=
  writeFrameHeader .GOAWAY (varintEnc lastStreamId).length ++
    varintEnc lastStreamId

/-- Modelled from the spec: the body of `writeMaxPushId` (declared at
HQFramer.h:386-387; the body is not in the excerpt). -/
def writeMaxPushId (maxPushId : Nat) : List Nat :=
  writeFrameHeader .MAX_PUSH_ID (varintEnc maxPushId).length ++
    varintEnc maxPushId

/-- Modelled from the spec: the caller-side frame-header read performed by
the demuxer around the per-frame parsers (spec section 4.2): a frame type
varint followed by a length varint, handing the remaining bytes to the
per-frame parser. -/
def decodeFrameHeader (bytes : List Nat) : Option (FrameHeader × List Nat) :=
  match readVarint bytes with
  | none => none
  | some (t, n1) =>
    match readVarint (bytes.drop n1) with
    | none => none
    | some (l, n2) => some (⟨t, l⟩, bytes.drop (n1 + n2))

/-- The varint encoding is never empty. -/
theorem varintEnc_length_pos (v : Nat) : 0 < (varintEnc v).length := by
  unfold varintEnc
  split
  · simp
  · split
    · simp
    · split <;> simp

/-- The varint encoding takes at most eight bytes. -/
theorem varintEnc_length_le (v : Nat) : (varintEnc v).length ≤ 8 := by
  unfold varintEnc
  split
  · simp
  · split
    · simp
    · split <;> simp

set_option maxHeartbeats 1000000 in
/-- Decoding inverts the shortest-form varint encoder for every encodable
value, consuming exactly the encoded bytes and leaving the tail alone. -/
theorem readVarint_varintEnc (v : Nat) (h : v < 0x4000000000000000)
    (rest : List Nat) :
    readVarint (varintEnc v ++ rest) = some (v, (varintEnc v).length) := by
  by_cases h1 : v < 0x40
  · rw [varintEnc, if_pos h1]
    simp only [List.cons_append, List.nil_append, List.length_cons,
      List.length_nil]
    rw [readVarint.eq_def]
    simp only []
    rw [Nat.mod_eq_of_lt (show v < 256 by omega), if_pos h1]
  · by_cases h2 : v < 0x4000
    · rw [varintEnc, if_neg h1, if_pos h2]
      simp only [List.cons_append, List.nil_append, List.length_cons,
        List.length_nil]
      rw [readVarint.eq_def]
      simp only []
      rw [Nat.mod_eq_of_lt (show 0x40 + v / 0x100 < 256 by omega),
        if_neg (by omega), if_pos (by omega)]
      simp only [Option.some.injEq, Prod.mk.injEq]
      exact ⟨by omega, trivial⟩
    · by_cases h3 : v < 0x40000000
      · rw [varintEnc, if_neg h1, if_neg h2, if_pos h3]
        simp only [List.cons_append, List.nil_append, List.length_cons,
          List.length_nil]
        rw [readVarint.eq_def]
        simp only []
        rw [Nat.mod_eq_of_lt (show 0x80 + v / 0x1000000 < 256 by omega),
          if_neg (by omega), if_neg (by omega), if_pos (by omega)]
        simp only [Option.some.injEq, Prod.mk.injEq]
        exact ⟨by omega, trivial⟩
      · rw [varintEnc, if_neg h1, if_neg h2, if_neg h3]
        rw [show v / 0x100000000000000 % 0x40 = v / 0x100000000000000 by omega]
        simp only [List.cons_append, List.nil_append, List.length_cons,
          List.length_nil]
        rw [readVarint.eq_def]
        simp only []
        rw [Nat.mod_eq_of_lt
            (show 0xC0 + v / 0x100000000000000 < 256 by omega),
          if_neg (by omega), if_neg (by omega), if_neg (by omega)]
        simp only [Option.some.injEq, Prod.mk.injEq]
        exact ⟨by omega, trivial⟩

/-- A successful varint read consumes between one byte and the whole
input. -/
theorem readVarint_consumed {bytes : List Nat} {v n : Nat}
    (h : readVarint bytes = some (v, n)) : 1 ≤ n ∧ n ≤ bytes.length := by
  rw [readVarint.eq_def] at h
  split at h
  · exact absurd h (by simp)
  · rename_i b0 rest
    split at h
    · simp only [Option.some.injEq, Prod.mk.injEq] at h
      simp [← h.2]
    · split at h
      · split at h
        · simp only [Option.some.injEq, Prod.mk.injEq] at h
          simp only [List.length_cons, ← h.2]
          omega
        · exact absurd h (by simp)
      · split at h
        · split at h
          · simp only [Option.some.injEq, Prod.mk.injEq] at h
            simp only [List.length_cons, ← h.2]
            omega
          · exact absurd h (by simp)
        · split at h
          · simp only [Option.some.injEq, Prod.mk.injEq] at h
            simp only [List.length_cons, ← h.2]
            omega
          · exact absurd h (by simp)

/-- Decoding a two-bit field inverts the numeric value of a priority
element type. -/
theorem ofTwoBits_toNat (t : PriorityElementType) :
    PriorityElementType.ofTwoBits t.toNat = t := by
  cases t <;> rfl

/-- The numeric value of a priority element type fits in two bits. -/
theorem toNat_le_three (t : PriorityElementType) : t.toNat ≤ 3 := by
  cases t <;> simp [PriorityElementType.toNat]

/-- The caller-side frame-header read recovers the type and length varints
written in front of a payload and hands the payload on. -/
theorem decodeFrameHeader_parts (t l : Nat) (ht : t < 0x4000000000000000)
    (hl : l < 0x4000000000000000) (payload : List Nat) :
    decodeFrameHeader (varintEnc t ++ varintEnc l ++ payload) =
      some (⟨t, l⟩, payload) := by
  rw [decodeFrameHeader, List.append_assoc, readVarint_varintEnc t ht]
  simp only []
  rw [List.drop_left, readVarint_varintEnc l hl]
  simp only []
  rw [← List.append_assoc,
    show (varintEnc t).length + (varintEnc l).length =
      (varintEnc t ++ varintEnc l).length by simp,
    List.drop_left]

/-- On success the settings loop consumes exactly its remaining budget. -/
theorem parseSettingsLoop_drop :
    ∀ (fuel remaining : Nat) (bytes seen : List Nat)
      (acc res : List (Nat × Nat)) (rest : List Nat),
    parseSettingsLoop fuel remaining bytes seen acc = .ok (res, rest) →
    rest = bytes.drop remaining := by
  intro fuel
  induction fuel with
  | zero =>
    intro remaining bytes seen acc res rest h
    match remaining with
    | 0 =>
      rw [parseSettingsLoop] at h
      simp only [Except.ok.injEq, Prod.mk.injEq] at h
      simp [← h.2]
    | r + 1 =>
      rw [parseSettingsLoop] at h
      exact absurd h (by simp)
  | succ fuel ih =>
    intro remaining bytes seen acc res rest h
    match remaining with
    | 0 =>
      rw [parseSettingsLoop] at h
      simp only [Except.ok.injEq, Prod.mk.injEq] at h
      simp [← h.2]
    | r + 1 =>
      rw [parseSettingsLoop] at h
      cases hr1 : readVarint bytes with
      | none => rw [hr1] at h; exact absurd h (by simp)
      | some val1 =>
        obtain ⟨sid, n1⟩ := val1
        rw [hr1] at h
        simp only [] at h
        cases hr2 : readVarint (bytes.drop n1) with
        | none => rw [hr2] at h; exact absurd h (by simp)
        | some val2 =>
          obtain ⟨sv, n2⟩ := val2
          rw [hr2] at h
          simp only [] at h
          split at h
          · split at h
            · exact absurd h (by simp)
            · rename_i hle _
              have hrec := ih (r + 1 - (n1 + n2)) (bytes.drop (n1 + n2)) _ _ _ _ h
              rw [hrec, List.drop_drop,
                show n1 + n2 + (r + 1 - (n1 + n2)) = r + 1 by omega]
          · exact absurd h (by simp)

/-- Running the settings loop on a serialized pair list followed by
unrelated bytes reports a duplicate recognized id as a SETTINGS_ERROR and
otherwise returns the accumulated pairs followed by the list, leaving the
unrelated bytes on the cursor. -/
theorem parseSettingsLoop_spec (settings : List (Nat × Nat)) :
    ∀ (fuel : Nat) (seen : List Nat) (acc : List (Nat × Nat))
      (rest : List Nat),
    (∀ s ∈ settings, s.1 < 0x4000000000000000 ∧ s.2 < 0x4000000000000000) →
    (settingsPayload settings).length ≤ fuel →
    parseSettingsLoop fuel (settingsPayload settings).length
        (settingsPayload settings ++ rest) seen acc =
      (if hasDupKnown settings seen then .error .SETTINGS_ERROR
       else .ok (acc.reverse ++ settings, rest)) := by
  induction settings with
  | nil =>
    intro fuel seen acc rest _ _
    simp only [settingsPayload, List.map_nil, List.flatten_nil,
      List.length_nil, List.nil_append, hasDupKnown]
    rw [parseSettingsLoop]
    simp
  | cons hd tl ih =>
    obtain ⟨sid, sv⟩ := hd
    intro fuel seen acc rest hv hfuel
    have hsid : sid < 0x4000000000000000 := (hv (sid, sv) (by simp)).1
    have hsv : sv < 0x4000000000000000 := (hv (sid, sv) (by simp)).2
    have hpay : settingsPayload ((sid, sv) :: tl) =
        varintEnc sid ++ (varintEnc sv ++ settingsPayload tl) := by
      simp [settingsPayload]
    have hlen : (settingsPayload ((sid, sv) :: tl)).length =
        (varintEnc sid).length + ((varintEnc sv).length +
          (settingsPayload tl).length) := by
      rw [hpay]
      simp [List.length_append]
    have hA : 0 < (varintEnc sid).length := varintEnc_length_pos sid
    have hB : 0 < (varintEnc sv).length := varintEnc_length_pos sv
    cases fuel with
    | zero => exact absurd hfuel (by omega)
    | succ f =>
      obtain ⟨r, hr⟩ : ∃ r, (settingsPayload ((sid, sv) :: tl)).length =
          r + 1 := ⟨(settingsPayload ((sid, sv) :: tl)).length - 1, by omega⟩
      rw [hr, hpay, List.append_assoc, List.append_assoc, parseSettingsLoop,
        readVarint_varintEnc sid hsid]
      simp only []
      rw [List.drop_left, readVarint_varintEnc sv hsv]
      simp only []
      rw [if_pos (by omega :
        (varintEnc sid).length + (varintEnc sv).length ≤ r + 1)]
      rw [hasDupKnown]
      by_cases hdup : (isKnownSettingId sid && decide (sid ∈ seen)) = true
      · have hk : isKnownSettingId sid = true ∧ sid ∈ seen := by
          simpa using hdup
        rw [if_pos hdup]
        simp [hk.1, hk.2]
      · rw [if_neg hdup, if_neg hdup]
        have hdrop : (varintEnc sid ++ (varintEnc sv ++
            (settingsPayload tl ++ rest))).drop
              ((varintEnc sid).length + (varintEnc sv).length) =
            settingsPayload tl ++ rest := by
          rw [← List.append_assoc,
            show (varintEnc sid).length + (varintEnc sv).length =
              (varintEnc sid ++ varintEnc sv).length by simp,
            List.drop_left]
        rw [show r + 1 - ((varintEnc sid).length + (varintEnc sv).length) =
            (settingsPayload tl).length by omega, hdrop]
        rw [ih f _ ((sid, sv) :: acc) rest
          (fun s hs => hv s (List.mem_cons_of_mem _ hs)) (by omega)]
        simp only [List.reverse_cons, List.append_assoc,
          List.singleton_append]

/-- The scan-based duplicate check is equivalent to a count-based one:
starting from a `seen` accumulator it fires exactly when some recognized
id either was already seen and occurs at least once, or occurs in at
least two pairs. -/
theorem hasDupKnown_iff (settings : List (Nat × Nat)) :
    ∀ seen : List Nat,
    hasDupKnown settings seen = true ↔
      ∃ i, isKnownSettingId i = true ∧
        ((i ∈ seen ∧ 1 ≤ settings.countP (fun s => decide (s.1 = i))) ∨
         2 ≤ settings.countP (fun s => decide (s.1 = i))) := by
  induction settings with
  | nil =>
    intro seen
    simp [hasDupKnown]
  | cons hd tl ih =>
    obtain ⟨sid, sv⟩ := hd
    intro seen
    have hcnt : ∀ i : Nat,
        List.countP (fun s => decide (s.1 = i)) ((sid, sv) :: tl) =
          List.countP (fun s => decide (s.1 = i)) tl +
            (if sid = i then 1 else 0) := by
      intro i
      rw [List.countP_cons]
      by_cases hsi : sid = i <;> simp [hsi]
    rw [hasDupKnown]
    by_cases hdup : (isKnownSettingId sid && decide (sid ∈ seen)) = true
    · have hk : isKnownSettingId sid = true ∧ sid ∈ seen := by
        simpa using hdup
      rw [if_pos hdup]
      constructor
      · intro _
        refine ⟨sid, hk.1, Or.inl ⟨hk.2, ?_⟩⟩
        rw [hcnt]
        simp
      · intro _
        rfl
    · rw [if_neg hdup, ih]
      constructor
      · rintro ⟨i, hki, hcase⟩
        refine ⟨i, hki, ?_⟩
        rcases hcase with ⟨hmem, h1⟩ | h2
        · by_cases hks : isKnownSettingId sid = true
          · rw [if_pos hks] at hmem
            rcases List.mem_cons.mp hmem with heq | hmem2
            · subst heq
              right
              rw [hcnt]
              simp only [eq_self_iff_true, if_true]
              omega
            · left
              exact ⟨hmem2, by rw [hcnt]; omega⟩
          · rw [if_neg hks] at hmem
            left
            exact ⟨hmem, by rw [hcnt]; omega⟩
        · right
          rw [hcnt]
          omega
      · rintro ⟨i, hki, hcase⟩
        refine ⟨i, hki, ?_⟩
        by_cases hsi : sid = i
        · subst hsi
          have hnmem : sid ∉ seen := by
            intro hmem
            exact hdup (by simp [hki, hmem])
          rcases hcase with ⟨hmem, h1⟩ | h2
          · exact absurd hmem hnmem
          · left
            rw [if_pos hki]
            refine ⟨List.mem_cons_self _ _, ?_⟩
            rw [hcnt] at h2
            simp only [eq_self_iff_true, if_true] at h2
            omega
        · rcases hcase with ⟨hmem, h1⟩ | h2
          · left
            refine ⟨?_, ?_⟩
            · by_cases hks : isKnownSettingId sid = true
              · rw [if_pos hks]
                exact List.mem_cons_of_mem _ hmem
              · rw [if_neg hks]
                exact hmem
            · rw [hcnt] at h1
              simp only [if_neg hsi] at h1
              omega
          · right
            rw [hcnt] at h2
            simp only [if_neg hsi] at h2
            omega

/-- C6: parseHeaders returns FRAME_ERROR for every frame whose header
declares length 0, whereas parseData succeeds on declared length 0 and
yields an empty payload buffer. -/
theorem parseHeaders_empty_vs_parseData (header : FrameHeader)
    (bytes : List Nat) (h : header.length = 0) :
    parseHeaders header bytes = .error .FRAME_ERROR ∧
    parseData header bytes = .ok ([], bytes) := by
  constructor
  · rw [parseHeaders, if_pos h]
  · rw [parseData, h]
    simp

/-- Witness for C6 at the concrete header of length 0 over one byte of
cursor data. -/
theorem parseHeaders_empty_vs_parseData_witness :
    (FrameHeader.mk 1 0).length = 0 ∧
    (parseHeaders (FrameHeader.mk 1 0) [9] = .error .FRAME_ERROR ∧
     parseData (FrameHeader.mk 1 0) [9] = .ok ([], [9])) :=
  ⟨rfl, parseHeaders_empty_vs_parseData (FrameHeader.mk 1 0) [9] rfl⟩

/-- C8: for every index up to kMaxGreaseIdIndex, getGreaseId returns
0x1F * n + 0x21 and that value satisfies isGreaseId; for every larger
index getGreaseId is absent. -/
theorem getGreaseId_spec (n : Nat) :
    (n ≤ kMaxGreaseIdIndex →
      getGreaseId n = some (0x1F * n + 0x21) ∧
      isGreaseId (0x1F * n + 0x21) = true) ∧
    (kMaxGreaseIdIndex < n → getGreaseId n = none) := by
  constructor
  · intro h
    constructor
    · rw [getGreaseId, if_neg (by omega)]
    · rw [isGreaseId]
      simp only [decide_eq_true_eq]
      refine ⟨by omega, by omega, by omega⟩
  · intro h
    rw [getGreaseId, if_pos (by omega)]

/-- Witness for C8 at index 0, whose grease id is 0x21. -/
theorem getGreaseId_spec_witness :
    (0 ≤ kMaxGreaseIdIndex) ∧
    (getGreaseId 0 = some 0x21 ∧ isGreaseId 0x21 = true) :=
  ⟨by decide, by simpa using (getGreaseId_spec 0).1 (by decide)⟩

/-- C9: writeSettings on the pairs HEADER_TABLE_SIZE=4096 and
QPACK_BLOCKED_STREAMS=100 emits exactly the eight bytes
04 06 01 50 00 07 40 64 and reports 8 bytes written. -/
theorem writeSettings_concrete :
    writeSettings [(SettingId.HEADER_TABLE_SIZE, 4096),
                   (SettingId.QPACK_BLOCKED_STREAMS, 100)] =
      [0x04, 0x06, 0x01, 0x50, 0x00, 0x07, 0x40, 0x64] ∧
    (writeSettings [(SettingId.HEADER_TABLE_SIZE, 4096),
                    (SettingId.QPACK_BLOCKED_STREAMS, 100)]).length = 8 := by
  decide

/-- C10: over the whole uint64 range the two push-id predicates are never
both true, and a value with the top bit clear but exceeding 2^62 - 1
satisfies neither. -/
theorem push_id_mutual_exclusion (x : Nat)
    (hx : x < 0x10000000000000000) :
    (¬ (isInternalPushId x = true ∧ isExternalPushId x = true)) ∧
    (x / 0x8000000000000000 = 0 → 0x3FFFFFFFFFFFFFFF < x →
      isInternalPushId x = false ∧ isExternalPushId x = false) := by
  have hm : x % 0x10000000000000000 = x := Nat.mod_eq_of_lt hx
  constructor
  · rintro ⟨h1, h2⟩
    simp only [isInternalPushId, kPushIdMask, hm, decide_eq_true_eq] at h1
    simp only [isExternalPushId, kPushIdMask, hm, decide_eq_true_eq] at h2
    omega
  · intro hbit hgt
    constructor
    · simp only [isInternalPushId, kPushIdMask, hm,
        decide_eq_false_iff_not]
      omega
    · simp only [isExternalPushId, kPushIdMask, hm,
        decide_eq_false_iff_not]
      omega

/-- Witness for C10 at the concrete input 5. -/
theorem push_id_mutual_exclusion_witness :
    (5 : Nat) < 0x10000000000000000 ∧
    ¬ (isInternalPushId 5 = true ∧ isExternalPushId 5 = true) :=
  ⟨by decide, (push_id_mutual_exclusion 5 (by decide)).1⟩

/-- Counterexample to C7 as stated: 2^62 is a valid 63-bit value (it is
below 2^63), yet neither isInternalPushId nor isExternalPushId holds of
it, so it is not the case that exactly one of the two predicates holds
for every value below 2^63. -/
theorem push_id_xor_counterexample :
    (0x4000000000000000 : Nat) < 2 ^ 63 ∧
    isInternalPushId 0x4000000000000000 = false ∧
    isExternalPushId 0x4000000000000000 = false := by
  refine ⟨by norm_num, by decide, by decide⟩

/-- C7 amended: for every uint64 value, isInternalPushId holds iff bit 63
is set and isExternalPushId holds iff bit 63 is clear and the value is at
most 2^62 - 1; consequently exactly one of the two holds for every valid
62-bit value (namely isExternalPushId), while for values in
[2^62, 2^63) both predicates are false. -/
theorem push_id_space_amended (x : Nat) (hx : x < 0x10000000000000000) :
    ((isInternalPushId x = true) ↔ x / 0x8000000000000000 = 1) ∧
    ((isExternalPushId x = true) ↔
      (x / 0x8000000000000000 = 0 ∧ x ≤ 0x3FFFFFFFFFFFFFFF)) ∧
    (x < 0x4000000000000000 →
      isExternalPushId x = true ∧ isInternalPushId x = false) ∧
    (0x4000000000000000 ≤ x → x < 0x8000000000000000 →
      isInternalPushId x = false ∧ isExternalPushId x = false) := by
  have hm : x % 0x10000000000000000 = x := Nat.mod_eq_of_lt hx
  refine ⟨?_, ?_, ?_, ?_⟩
  · simp only [isInternalPushId, kPushIdMask, hm, decide_eq_true_eq]
  · simp only [isExternalPushId, kPushIdMask, hm, decide_eq_true_eq]
  · intro hlt
    constructor
    · simp only [isExternalPushId, kPushIdMask, hm, decide_eq_true_eq]
      omega
    · simp only [isInternalPushId, kPushIdMask, hm,
        decide_eq_false_iff_not]
      omega
  · intro hge hlt
    constructor
    · simp only [isInternalPushId, kPushIdMask, hm,
        decide_eq_false_iff_not]
      omega
    · simp only [isExternalPushId, kPushIdMask, hm,
        decide_eq_false_iff_not]
      omega

/-- Witness for the amended C7 at the concrete input 3. -/
theorem push_id_space_amended_witness :
    (3 : Nat) < 0x10000000000000000 ∧ (3 : Nat) < 0x4000000000000000 ∧
    (isExternalPushId 3 = true ∧ isInternalPushId 3 = false) :=
  ⟨by decide, by decide,
    (push_id_space_amended 3 (by decide)).2.2.1 (by decide)⟩

/-- C4: for CANCEL_PUSH, GOAWAY and MAX_PUSH_ID the parser succeeds
exactly when the declared length equals the encoded size of the payload
varint, returning the decoded value; any other declared length yields
FRAME_ERROR. -/
theorem exact_varint_length_frames (header : FrameHeader)
    (bytes : List Nat) (v n : Nat) (hr : readVarint bytes = some (v, n)) :
    (n = header.length →
      parseCancelPush header bytes = .ok (v, bytes.drop n) ∧
      parseGoaway header bytes = .ok (v, bytes.drop n) ∧
      parseMaxPushId header bytes = .ok (v, bytes.drop n)) ∧
    (n ≠ header.length →
      parseCancelPush header bytes = .error .FRAME_ERROR ∧
      parseGoaway header bytes = .error .FRAME_ERROR ∧
      parseMaxPushId header bytes = .error .FRAME_ERROR) := by
  constructor
  · intro he
    refine ⟨?_, ?_, ?_⟩
    · rw [parseCancelPush, hr]
      simp only []
      rw [if_pos he]
    · rw [parseGoaway, hr]
      simp only []
      rw [if_pos he]
    · rw [parseMaxPushId, hr]
      simp only []
      rw [if_pos he]
  · intro he
    refine ⟨?_, ?_, ?_⟩
    · rw [parseCancelPush, hr]
      simp only []
      rw [if_neg he]
    · rw [parseGoaway, hr]
      simp only []
      rw [if_neg he]
    · rw [parseMaxPushId, hr]
      simp only []
      rw [if_neg he]

/-- Witness for C4 on the one-byte payload 07 with declared length 1. -/
theorem exact_varint_length_frames_witness :
    readVarint [(7 : Nat)] = some (7, 1) ∧
    (parseCancelPush (FrameHeader.mk 3 1) [7] = .ok (7, [(7 : Nat)].drop 1) ∧
     parseGoaway (FrameHeader.mk 3 1) [7] = .ok (7, [(7 : Nat)].drop 1) ∧
     parseMaxPushId (FrameHeader.mk 3 1) [7] = .ok (7, [(7 : Nat)].drop 1)) :=
  ⟨rfl, (exact_varint_length_frames (FrameHeader.mk 3 1) [7] 7 1 rfl).1 rfl⟩

/-- C3: parsePriority decodes the first payload byte with prioritizedType
in bits 7-6, dependencyType in bits 5-4 and exclusive in bit 0; it
returns FRAME_ERROR whenever the reserved bits 3-2 are non-zero and
whenever the prioritized type is TREE_ROOT; and when the dependency type
is TREE_ROOT it reads no dependency varint (the declared length counts
only the flags byte, the prioritized element varint and the weight byte)
and stores elementDependencyId as 0. -/
theorem parsePriority_first_byte (header : FrameHeader) (b0 : Nat)
    (r : List Nat) :
    (b0 % 256 / 4 % 4 ≠ 0 →
      parsePriority header (b0 :: r) = .error .FRAME_ERROR) ∧
    (PriorityElementType.ofTwoBits (b0 % 256 / 64) = .TREE_ROOT →
      parsePriority header (b0 :: r) = .error .FRAME_ERROR) ∧
    (∀ p rest, parsePriority header (b0 :: r) = .ok (p, rest) →
      p.prioritizedType = PriorityElementType.ofTwoBits (b0 % 256 / 64) ∧
      p.dependencyType =
        PriorityElementType.ofTwoBits (b0 % 256 / 16 % 4) ∧
      p.exclusive = decide (b0 % 256 % 2 = 1) ∧
      (p.dependencyType = PriorityElementType.TREE_ROOT →
        p.elementDependencyId = 0 ∧
        ∃ pe n1, readVarint r = some (pe, n1) ∧
          header.length = 1 + n1 + 1)) := by
  refine ⟨?_, ?_, ?_⟩
  · intro hres
    rw [parsePriority]
    rw [if_pos hres]
  · intro hpt
    rw [parsePriority]
    by_cases hres : b0 % 256 / 4 % 4 ≠ 0
    · rw [if_pos hres]
    · rw [if_neg hres, if_pos hpt]
  · intro p rest h
    rw [parsePriority] at h
    split at h
    · simp at h
    · split at h
      · simp at h
      · split at h
        · simp at h
        · rename_i pe n1 heq
          by_cases hdt : PriorityElementType.ofTwoBits (b0 % 256 / 16 % 4) =
              PriorityElementType.TREE_ROOT
          · rw [if_pos hdt] at h
            simp only [] at h
            split at h
            · simp at h
            · split at h
              · rename_i w tail hwt hlen
                simp only [Except.ok.injEq, Prod.mk.injEq] at h
                obtain ⟨hp, hrest⟩ := h
                cases hp
                exact ⟨rfl, rfl, rfl,
                  fun _ => ⟨rfl, pe, n1, heq, by omega⟩⟩
              · simp at h
          · rw [if_neg hdt] at h
            split at h
            · simp at h
            · rename_i ed n2 heq2
              split at h
              · simp at h
              · split at h
                · rename_i w tail hwt hlen
                  simp only [Except.ok.injEq, Prod.mk.injEq] at h
                  obtain ⟨hp, hrest⟩ := h
                  cases hp
                  exact ⟨rfl, rfl, rfl, fun hdt2 => absurd hdt2 hdt⟩
                · simp at h

/-- Witness for C3 at the byte 0x04, whose reserved bit 2 is set. -/
theorem parsePriority_first_byte_witness :
    (4 : Nat) % 256 / 4 % 4 ≠ 0 ∧
    parsePriority (FrameHeader.mk 2 2) [4] = .error .FRAME_ERROR :=
  ⟨by decide, (parsePriority_first_byte (FrameHeader.mk 2 2) 4 []).1
    (by decide)⟩

/-- Dropping a prefix of in-range length shortens a list by exactly that
length. -/
theorem drop_length_spec (bytes : List Nat) (L : Nat)
    (h : L ≤ bytes.length) :
    bytes.length - (bytes.drop L).length = L := by
  simp only [List.length_drop]
  omega

/-- C2: every per-frame parser that succeeds on a cursor holding at least
the declared payload length leaves the cursor advanced by exactly
header.length bytes: the remaining bytes are the declared-length drop of
the input and the consumed count equals header.length. -/
theorem parser_length_discipline (header : FrameHeader) (bytes : List Nat)
    (hlen : header.length ≤ bytes.length) :
    (∀ out rest, parseData header bytes = .ok (out, rest) →
      rest = bytes.drop header.length ∧
      bytes.length - rest.length = header.length) ∧
    (∀ out rest, parseHeaders header bytes = .ok (out, rest) →
      rest = bytes.drop header.length ∧
      bytes.length - rest.length = header.length) ∧
    (∀ out rest, parsePriority header bytes = .ok (out, rest) →
      rest = bytes.drop header.length ∧
      bytes.length - rest.length = header.length) ∧
    (∀ out rest, parseCancelPush header bytes = .ok (out, rest) →
      rest = bytes.drop header.length ∧
      bytes.length - rest.length = header.length) ∧
    (∀ out rest, parseSettings header bytes = .ok (out, rest) →
      rest = bytes.drop header.length ∧
      bytes.length - rest.length = header.length) ∧
    (∀ out rest, parsePushPromise header bytes = .ok (out, rest) →
      rest = bytes.drop header.length ∧
      bytes.length - rest.length = header.length) ∧
    (∀ out rest, parseGoaway header bytes = .ok (out, rest) →
      rest = bytes.drop header.length ∧
      bytes.length - rest.length = header.length) ∧
    (∀ out rest, parseMaxPushId header bytes = .ok (out, rest) →
      rest = bytes.drop header.length ∧
      bytes.length - rest.length = header.length) := by
  refine ⟨?_, ?_, ?_, ?_, ?_, ?_, ?_, ?_⟩
  · intro out rest h
    rw [parseData] at h
    split at h
    · simp at h
    · simp only [Except.ok.injEq, Prod.mk.injEq] at h
      have hr : rest = bytes.drop header.length := h.2.symm
      exact ⟨hr, hr ▸ drop_length_spec bytes header.length hlen⟩
  · intro out rest h
    rw [parseHeaders] at h
    split at h
    · simp at h
    · split at h
      · simp at h
      · simp only [Except.ok.injEq, Prod.mk.injEq] at h
        have hr : rest = bytes.drop header.length := h.2.symm
        exact ⟨hr, hr ▸ drop_length_spec bytes header.length hlen⟩
  · intro out rest h
    rw [parsePriority.eq_def] at h
    split at h
    · simp at h
    · rename_i b0 r1
      simp only [] at h
      by_cases hres : b0 % 256 / 4 % 4 ≠ 0
      · rw [if_pos hres] at h
        simp at h
      · rw [if_neg hres] at h
        by_cases hpt : PriorityElementType.ofTwoBits (b0 % 256 / 64) =
            PriorityElementType.TREE_ROOT
        · rw [if_pos hpt] at h
          simp at h
        · rw [if_neg hpt] at h
          split at h
          · simp at h
          · rename_i pe n1 heq
            split at h
            · simp at h
            · rename_i ed n2 heq2
              split at h
              · simp at h
              · rename_i w tail hwt
                split at h
                · rename_i hck
                  simp only [Except.ok.injEq, Prod.mk.injEq] at h
                  have hr : rest = List.drop (n1 + n2 + 1) r1 := h.2.symm
                  have hr2 : rest = (b0 :: r1).drop header.length := by
                    rw [hr, ← hck,
                      show 1 + n1 + n2 + 1 = (n1 + n2 + 1) + 1 by omega,
                      List.drop_succ_cons]
                  exact ⟨hr2, hr2 ▸
                    drop_length_spec (b0 :: r1) header.length hlen⟩
                · simp at h
  · intro out rest h
    rw [parseCancelPush] at h
    split at h
    · simp at h
    · rename_i v n heq
      split at h
      · rename_i hck
        simp only [Except.ok.injEq, Prod.mk.injEq] at h
        have hr : rest = bytes.drop header.length := by
          rw [← h.2, hck]
        exact ⟨hr, hr ▸ drop_length_spec bytes header.length hlen⟩
      · simp at h
  · intro out rest h
    rw [parseSettings] at h
    have hr : rest = bytes.drop header.length :=
      parseSettingsLoop_drop header.length header.length bytes [] [] out
        rest h
    exact ⟨hr, hr ▸ drop_length_spec bytes header.length hlen⟩
  · intro out rest h
    rw [parsePushPromise] at h
    split at h
    · simp at h
    · rename_i v n heq
      split at h
      · simp at h
      · split at h
        · simp at h
        · simp only [Except.ok.injEq, Prod.mk.injEq] at h
          have hr : rest = bytes.drop header.length := h.2.symm
          exact ⟨hr, hr ▸ drop_length_spec bytes header.length hlen⟩
  · intro out rest h
    rw [parseGoaway] at h
    split at h
    · simp at h
    · rename_i v n heq
      split at h
      · rename_i hck
        simp only [Except.ok.injEq, Prod.mk.injEq] at h
        have hr : rest = bytes.drop header.length := by
          rw [← h.2, hck]
        exact ⟨hr, hr ▸ drop_length_spec bytes header.length hlen⟩
      · simp at h
  · intro out rest h
    rw [parseMaxPushId] at h
    split at h
    · simp at h
    · rename_i v n heq
      split at h
      · rename_i hck
        simp only [Except.ok.injEq, Prod.mk.injEq] at h
        have hr : rest = bytes.drop header.length := by
          rw [← h.2, hck]
        exact ⟨hr, hr ▸ drop_length_spec bytes header.length hlen⟩
      · simp at h

/-- Witness for C2 on a DATA frame of declared length 1 over a two-byte
cursor. -/
theorem parser_length_discipline_witness :
    (FrameHeader.mk 0 1).length ≤ [(5 : Nat), 6].length ∧
    (([6] : List Nat) = [(5 : Nat), 6].drop (FrameHeader.mk 0 1).length ∧
     [(5 : Nat), 6].length - [(6 : Nat)].length =
       (FrameHeader.mk 0 1).length) :=
  ⟨by decide, (parser_length_discipline (FrameHeader.mk 0 1) [5, 6]
    (by decide)).1 [5] [6] rfl⟩

/-- Round trip of a DATA frame through the writer, the caller-side header
decode and the DATA parser. -/
theorem roundtrip_data (data : List Nat)
    (h : data.length < 0x4000000000000000) :
    decodeFrameHeader (writeData data) =
      some (FrameHeader.mk FrameType.DATA.toNat data.length, data) ∧
    parseData (FrameHeader.mk FrameType.DATA.toNat data.length) data =
      .ok (data, []) := by
  constructor
  · rw [writeData, writeFrameHeader]
    exact decodeFrameHeader_parts _ _ (by decide) h data
  · rw [parseData]
    simp

/-- Round trip of a HEADERS frame through the writer, the caller-side
header decode and the HEADERS parser; the payload must be non-empty. -/
theorem roundtrip_headers (data : List Nat) (hne : data ≠ [])
    (h : data.length < 0x4000000000000000) :
    decodeFrameHeader (writeHeaders data) =
      some (FrameHeader.mk FrameType.HEADERS.toNat data.length, data) ∧
    parseHeaders (FrameHeader.mk FrameType.HEADERS.toNat data.length)
      data = .ok (data, []) := by
  constructor
  · rw [writeHeaders, writeFrameHeader]
    exact decodeFrameHeader_parts _ _ (by decide) h data
  · rw [parseHeaders]
    simp [hne]

/-- Round trip of a CANCEL_PUSH frame. -/
theorem roundtrip_cancel_push (pushId : Nat)
    (h : pushId < 0x4000000000000000) :
    decodeFrameHeader (writeCancelPush pushId) =
      some (FrameHeader.mk FrameType.CANCEL_PUSH.toNat
        (varintEnc pushId).length, varintEnc pushId) ∧
    parseCancelPush (FrameHeader.mk FrameType.CANCEL_PUSH.toNat
        (varintEnc pushId).length) (varintEnc pushId) =
      .ok (pushId, []) := by
  have hr := readVarint_varintEnc pushId h []
  rw [List.append_nil] at hr
  constructor
  · rw [writeCancelPush, writeFrameHeader]
    exact decodeFrameHeader_parts _ _ (by decide)
      (by have := varintEnc_length_le pushId; omega) _
  · rw [parseCancelPush, hr]
    simp [List.drop_length]

/-- Round trip of a GOAWAY frame. -/
theorem roundtrip_goaway (lastStreamId : Nat)
    (h : lastStreamId < 0x4000000000000000) :
    decodeFrameHeader (writeGoaway lastStreamId) =
      some (FrameHeader.mk FrameType.GOAWAY.toNat
        (varintEnc lastStreamId).length, varintEnc lastStreamId) ∧
    parseGoaway (FrameHeader.mk FrameType.GOAWAY.toNat
        (varintEnc lastStreamId).length) (varintEnc lastStreamId) =
      .ok (lastStreamId, []) := by
  have hr := readVarint_varintEnc lastStreamId h []
  rw [List.append_nil] at hr
  constructor
  · rw [writeGoaway, writeFrameHeader]
    exact decodeFrameHeader_parts _ _ (by decide)
      (by have := varintEnc_length_le lastStreamId; omega) _
  · rw [parseGoaway, hr]
    simp [List.drop_length]

/-- Round trip of a MAX_PUSH_ID frame. -/
theorem roundtrip_max_push_id (maxPushId : Nat)
    (h : maxPushId < 0x4000000000000000) :
    decodeFrameHeader (writeMaxPushId maxPushId) =
      some (FrameHeader.mk FrameType.MAX_PUSH_ID.toNat
        (varintEnc maxPushId).length, varintEnc maxPushId) ∧
    parseMaxPushId (FrameHeader.mk FrameType.MAX_PUSH_ID.toNat
        (varintEnc maxPushId).length) (varintEnc maxPushId) =
      .ok (maxPushId, []) := by
  have hr := readVarint_varintEnc maxPushId h []
  rw [List.append_nil] at hr
  constructor
  · rw [writeMaxPushId, writeFrameHeader]
    exact decodeFrameHeader_parts _ _ (by decide)
      (by have := varintEnc_length_le maxPushId; omega) _
  · rw [parseMaxPushId, hr]
    simp [List.drop_length]

/-- Round trip of a PUSH_PROMISE frame: the push id varint followed by
the opaque header block. -/
theorem roundtrip_push_promise (pushId : Nat) (data : List Nat)
    (h : pushId < 0x4000000000000000)
    (hL : (varintEnc pushId ++ data).length < 0x4000000000000000) :
    decodeFrameHeader (writePushPromise pushId data) =
      some (FrameHeader.mk FrameType.PUSH_PROMISE.toNat
        (varintEnc pushId ++ data).length, varintEnc pushId ++ data) ∧
    parsePushPromise (FrameHeader.mk FrameType.PUSH_PROMISE.toNat
        (varintEnc pushId ++ data).length) (varintEnc pushId ++ data) =
      .ok ((pushId, data), []) := by
  constructor
  · rw [writePushPromise, writeFrameHeader]
    exact decodeFrameHeader_parts _ _ (by decide) hL _
  · rw [parsePushPromise, readVarint_varintEnc pushId h data]
    simp only [List.length_append]
    rw [if_neg (by omega), if_neg (by omega), List.drop_left]
    rw [show (varintEnc pushId).length + data.length -
        (varintEnc pushId).length = data.length by omega, List.take_length]
    rw [show (varintEnc pushId).length + data.length =
        (varintEnc pushId ++ data).length by simp, List.drop_length]

/-- Round trip of a SETTINGS frame free of duplicate recognized ids. -/
theorem roundtrip_settings (settings : List (Nat × Nat))
    (hv : ∀ s ∈ settings,
      s.1 < 0x4000000000000000 ∧ s.2 < 0x4000000000000000)
    (hnodup : ∀ i, isKnownSettingId i = true →
      settings.countP (fun s => decide (s.1 = i)) ≤ 1)
    (hL : (settingsPayload settings).length < 0x4000000000000000) :
    decodeFrameHeader (writeSettings settings) =
      some (FrameHeader.mk FrameType.SETTINGS.toNat
        (settingsPayload settings).length, settingsPayload settings) ∧
    parseSettings (FrameHeader.mk FrameType.SETTINGS.toNat
        (settingsPayload settings).length) (settingsPayload settings) =
      .ok (settings, []) := by
  have hdup : hasDupKnown settings [] = false := by
    cases hb : hasDupKnown settings [] with
    | false => rfl
    | true =>
      obtain ⟨i, hki, hcase⟩ := (hasDupKnown_iff settings []).mp hb
      rcases hcase with ⟨hmem, _⟩ | h2
      · exact absurd hmem (List.not_mem_nil i)
      · have := hnodup i hki
        omega
  constructor
  · rw [writeSettings, writeFrameHeader]
    exact decodeFrameHeader_parts _ _ (by decide) hL _
  · have hloop := parseSettingsLoop_spec settings
      (settingsPayload settings).length [] [] [] hv (le_refl _)
    rw [List.append_nil] at hloop
    rw [parseSettings]
    simp only []
    rw [hloop, hdup]
    simp

/-- Round trip of a PRIORITY frame: a valid priority update (prioritized
type not TREE_ROOT, ids in varint range, weight a byte, dependency id 0
when the dependency type is TREE_ROOT) is recovered exactly. -/
theorem roundtrip_priority (p : PriorityUpdate)
    (hpt : p.prioritizedType ≠ PriorityElementType.TREE_ROOT)
    (hpe : p.prioritizedElementId < 0x4000000000000000)
    (hed : p.elementDependencyId < 0x4000000000000000)
    (hw : p.weight < 256)
    (hdep : p.dependencyType = PriorityElementType.TREE_ROOT →
      p.elementDependencyId = 0) :
    decodeFrameHeader (writePriority p) =
      some (FrameHeader.mk FrameType.PRIORITY.toNat
        (priorityPayload p).length, priorityPayload p) ∧
    parsePriority (FrameHeader.mk FrameType.PRIORITY.toNat
        (priorityPayload p).length) (priorityPayload p) =
      .ok (p, []) := by
  obtain ⟨pt, dt, pe, ed, w, ex⟩ := p
  simp only [] at hpt hpe hed hw hdep
  have ha := toNat_le_three pt
  have hb := toNat_le_three dt
  have he : (if ex then 1 else 0) ≤ 1 := by
    by_cases hx : ex <;> simp [hx]
  have hL : (priorityPayload ⟨pt, dt, pe, ed, w, ex⟩).length <
      0x4000000000000000 := by
    have h1 := varintEnc_length_le pe
    have h2 := varintEnc_length_le ed
    by_cases hdt : dt = PriorityElementType.TREE_ROOT <;>
      simp [priorityPayload, hdt, List.length_append] <;> omega
  constructor
  · rw [writePriority, writeFrameHeader]
    exact decodeFrameHeader_parts _ _ (by decide) hL _
  · rw [priorityPayload, parsePriority.eq_def]
    simp only []
    rw [Nat.mod_eq_of_lt (show pt.toNat * 64 + dt.toNat * 16 +
      (if ex then 1 else 0) < 256 by omega)]
    rw [if_neg (show ¬ ((pt.toNat * 64 + dt.toNat * 16 +
      (if ex then 1 else 0)) / 4 % 4 ≠ 0) by omega)]
    rw [show (pt.toNat * 64 + dt.toNat * 16 +
      (if ex then 1 else 0)) / 64 = pt.toNat by omega, ofTwoBits_toNat]
    rw [if_neg hpt]
    rw [show (pt.toNat * 64 + dt.toNat * 16 +
      (if ex then 1 else 0)) / 16 % 4 = dt.toNat by omega, ofTwoBits_toNat]
    rw [List.append_assoc, readVarint_varintEnc pe hpe]
    simp only []
    by_cases hdt : dt = PriorityElementType.TREE_ROOT
    · rw [if_pos hdt, if_pos hdt]
      simp only [List.nil_append]
      rw [Nat.add_zero, List.drop_left]
      simp only []
      rw [if_pos (by simp [List.length_append]; omega)]
      rw [show (pt.toNat * 64 + dt.toNat * 16 +
        (if ex then 1 else 0)) % 2 = (if ex then 1 else 0) by omega]
      rw [Nat.mod_eq_of_lt hw, hdep hdt]
      rw [show (varintEnc pe).length + 0 + 1 =
        (varintEnc pe ++ [w]).length by simp, List.drop_length]
      have hex : decide ((if ex then 1 else 0) = 1) = ex := by
        by_cases hx : ex <;> simp [hx]
      rw [hex]
    · rw [if_neg hdt, if_neg hdt]
      rw [List.drop_left, readVarint_varintEnc ed hed]
      simp only []
      rw [show (varintEnc pe).length + (varintEnc ed).length =
        (varintEnc pe ++ varintEnc ed).length by simp [List.length_append]]
      rw [← List.append_assoc, List.drop_left]
      simp only []
      rw [if_pos (by simp [List.length_append]; omega)]
      rw [show (pt.toNat * 64 + dt.toNat * 16 +
        (if ex then 1 else 0)) % 2 = (if ex then 1 else 0) by omega]
      rw [Nat.mod_eq_of_lt hw]
      rw [show (varintEnc pe ++ varintEnc ed).length + 1 =
        ((varintEnc pe ++ varintEnc ed) ++ [w]).length by
          simp [List.length_append]
          omega, List.drop_length]
      have hex : decide ((if ex then 1 else 0) = 1) = ex := by
        by_cases hx : ex <;> simp [hx]
      rw [hex]

/-- C1: for every known frame type and every valid payload value, the
bytes produced by the writer of the frame decode back to the same value: the
caller-side header decode recovers the codepoint of the frame and payload
length, and the per-frame parser applied to the written payload returns
the original value (priority weight bit-exact, push ids and stream ids
as 62-bit values), consuming the whole payload. -/
theorem hq_frame_roundtrip :
    (∀ data : List Nat, data.length < 0x4000000000000000 →
      decodeFrameHeader (writeData data) =
        some (FrameHeader.mk FrameType.DATA.toNat data.length, data) ∧
      parseData (FrameHeader.mk FrameType.DATA.toNat data.length) data =
        .ok (data, [])) ∧
    (∀ data : List Nat, data ≠ [] → data.length < 0x4000000000000000 →
      decodeFrameHeader (writeHeaders data) =
        some (FrameHeader.mk FrameType.HEADERS.toNat data.length, data) ∧
      parseHeaders (FrameHeader.mk FrameType.HEADERS.toNat data.length)
        data = .ok (data, [])) ∧
    (∀ p : PriorityUpdate,
      p.prioritizedType ≠ PriorityElementType.TREE_ROOT →
      p.prioritizedElementId < 0x4000000000000000 →
      p.elementDependencyId < 0x4000000000000000 →
      p.weight < 256 →
      (p.dependencyType = PriorityElementType.TREE_ROOT →
        p.elementDependencyId = 0) →
      decodeFrameHeader (writePriority p) =
        some (FrameHeader.mk FrameType.PRIORITY.toNat
          (priorityPayload p).length, priorityPayload p) ∧
      parsePriority (FrameHeader.mk FrameType.PRIORITY.toNat
        (priorityPayload p).length) (priorityPayload p) = .ok (p, [])) ∧
    (∀ pushId : Nat, pushId < 0x4000000000000000 →
      decodeFrameHeader (writeCancelPush pushId) =
        some (FrameHeader.mk FrameType.CANCEL_PUSH.toNat
          (varintEnc pushId).length, varintEnc pushId) ∧
      parseCancelPush (FrameHeader.mk FrameType.CANCEL_PUSH.toNat
        (varintEnc pushId).length) (varintEnc pushId) =
        .ok (pushId, [])) ∧
    (∀ settings : List (Nat × Nat),
      (∀ s ∈ settings,
        s.1 < 0x4000000000000000 ∧ s.2 < 0x4000000000000000) →
      (∀ i, isKnownSettingId i = true →
        settings.countP (fun s => decide (s.1 = i)) ≤ 1) →
      (settingsPayload settings).length < 0x4000000000000000 →
      decodeFrameHeader (writeSettings settings) =
        some (FrameHeader.mk FrameType.SETTINGS.toNat
          (settingsPayload settings).length, settingsPayload settings) ∧
      parseSettings (FrameHeader.mk FrameType.SETTINGS.toNat
        (settingsPayload settings).length) (settingsPayload settings) =
        .ok (settings, [])) ∧
    (∀ (pushId : Nat) (data : List Nat), pushId < 0x4000000000000000 →
      (varintEnc pushId ++ data).length < 0x4000000000000000 →
      decodeFrameHeader (writePushPromise pushId data) =
        some (FrameHeader.mk FrameType.PUSH_PROMISE.toNat
          (varintEnc pushId ++ data).length, varintEnc pushId ++ data) ∧
      parsePushPromise (FrameHeader.mk FrameType.PUSH_PROMISE.toNat
        (varintEnc pushId ++ data).length) (varintEnc pushId ++ data) =
        .ok ((pushId, data), [])) ∧
    (∀ lastStreamId : Nat, lastStreamId < 0x4000000000000000 →
      decodeFrameHeader (writeGoaway lastStreamId) =
        some (FrameHeader.mk FrameType.GOAWAY.toNat
          (varintEnc lastStreamId).length, varintEnc lastStreamId) ∧
      parseGoaway (FrameHeader.mk FrameType.GOAWAY.toNat
        (varintEnc lastStreamId).length) (varintEnc lastStreamId) =
        .ok (lastStreamId, [])) ∧
    (∀ maxPushId : Nat, maxPushId < 0x4000000000000000 →
      decodeFrameHeader (writeMaxPushId maxPushId) =
        some (FrameHeader.mk FrameType.MAX_PUSH_ID.toNat
          (varintEnc maxPushId).length, varintEnc maxPushId) ∧
      parseMaxPushId (FrameHeader.mk FrameType.MAX_PUSH_ID.toNat
        (varintEnc maxPushId).length) (varintEnc maxPushId) =
        .ok (maxPushId, [])) := by
  refine ⟨?_, ?_, ?_, ?_, ?_, ?_, ?_, ?_⟩
  · intro data h
    exact roundtrip_data data h
  · intro data hne h
    exact roundtrip_headers data hne h
  · intro p hpt hpe hed hw hdep
    exact roundtrip_priority p hpt hpe hed hw hdep
  · intro pushId h
    exact roundtrip_cancel_push pushId h
  · intro settings hv hnodup hL
    exact roundtrip_settings settings hv hnodup hL
  · intro pushId data h hL
    exact roundtrip_push_promise pushId data h hL
  · intro lastStreamId h
    exact roundtrip_goaway lastStreamId h
  · intro maxPushId h
    exact roundtrip_max_push_id maxPushId h

/-- Witness for C1 on a one-byte DATA payload and on CANCEL_PUSH with
push id 7. -/
theorem hq_frame_roundtrip_witness :
    ([(171 : Nat)] : List Nat).length < 0x4000000000000000 ∧
    (decodeFrameHeader (writeData [171]) =
        some (FrameHeader.mk FrameType.DATA.toNat
          ([(171 : Nat)] : List Nat).length, [171]) ∧
     parseData (FrameHeader.mk FrameType.DATA.toNat
        ([(171 : Nat)] : List Nat).length) [171] = .ok ([171], [])) ∧
    (7 : Nat) < 0x4000000000000000 ∧
    (decodeFrameHeader (writeCancelPush 7) =
        some (FrameHeader.mk FrameType.CANCEL_PUSH.toNat
          (varintEnc 7).length, varintEnc 7) ∧
     parseCancelPush (FrameHeader.mk FrameType.CANCEL_PUSH.toNat
        (varintEnc 7).length) (varintEnc 7) = .ok (7, [])) :=
  ⟨by decide, hq_frame_roundtrip.1 [171] (by decide), by decide,
   hq_frame_roundtrip.2.2.2.1 7 (by decide)⟩

/-- C5: a SETTINGS payload in which some recognized setting id occurs in
more than one pair parses to SETTINGS_ERROR; a payload of varint pairs
without duplicate recognized ids that fills exactly the declared length
parses successfully and returns all pairs in order. -/
theorem parseSettings_duplicates (settings : List (Nat × Nat))
    (rest : List Nat)
    (hv : ∀ s ∈ settings,
      s.1 < 0x4000000000000000 ∧ s.2 < 0x4000000000000000) :
    ((∃ i, isKnownSettingId i = true ∧
        2 ≤ settings.countP (fun s => decide (s.1 = i))) →
      parseSettings (FrameHeader.mk FrameType.SETTINGS.toNat
          (settingsPayload settings).length)
        (settingsPayload settings ++ rest) = .error .SETTINGS_ERROR) ∧
    ((∀ i, isKnownSettingId i = true →
        settings.countP (fun s => decide (s.1 = i)) ≤ 1) →
      parseSettings (FrameHeader.mk FrameType.SETTINGS.toNat
          (settingsPayload settings).length)
        (settingsPayload settings ++ rest) = .ok (settings, rest)) := by
  have hloop := parseSettingsLoop_spec settings
    (settingsPayload settings).length [] [] rest hv (le_refl _)
  constructor
  · rintro ⟨i, hki, hcnt⟩
    have hd : hasDupKnown settings [] = true :=
      (hasDupKnown_iff settings []).mpr ⟨i, hki, Or.inr hcnt⟩
    rw [parseSettings]
    simp only []
    rw [hloop, hd]
    simp
  · intro hnodup
    have hd : hasDupKnown settings [] = false := by
      cases hb : hasDupKnown settings [] with
      | false => rfl
      | true =>
        obtain ⟨i, hki, hcase⟩ := (hasDupKnown_iff settings []).mp hb
        rcases hcase with ⟨hmem, _⟩ | h2
        · exact absurd hmem (List.not_mem_nil i)
        · have := hnodup i hki
          omega
    rw [parseSettings]
    simp only []
    rw [hloop, hd]
    simp

/-- Witness for C5: the payload with the recognized id 1 twice yields
SETTINGS_ERROR. -/
theorem parseSettings_duplicates_witness :
    (∀ s ∈ [((1 : Nat), (0 : Nat)), (1, 0)],
      s.1 < 0x4000000000000000 ∧ s.2 < 0x4000000000000000) ∧
    parseSettings (FrameHeader.mk FrameType.SETTINGS.toNat
        (settingsPayload [((1 : Nat), (0 : Nat)), (1, 0)]).length)
      (settingsPayload [((1 : Nat), (0 : Nat)), (1, 0)] ++ []) =
      .error .SETTINGS_ERROR :=
  ⟨by decide,
   (parseSettings_duplicates [(1, 0), (1, 0)] [] (by decide)).1
     ⟨1, by decide, by decide⟩⟩

end HQ
